import Mathlib

/-!
Shallow embedding of the semantic-cache QA system (`src/app.py`, with the
FastAPI variant in `src/stream.py` sharing the same cache logic).

The external collaborators (SentenceTransformer embedder, Pinecone index
scoring, Groq LLM, the wall clock, and Python's process-salted builtin
`hash`) are modelled as fields of an `Env` record: the core cache logic of
`SemanticCacheQA` is translated literally against that interface.

State that the Python code mutates through the Pinecone index is threaded
explicitly as `SysState`.  Besides the index contents, the state carries
instrumentation that records the calls made to collaborators: `upserts` logs
every vector passed to `index.upsert`, and `llmCalls` counts invocations of
the LLM, so frame properties ("no upsert occurs", "no Answerer call") are
statable.  `reads` counts `datetime.now()` reads whose value flows into data
(the metadata timestamp and the returned timestamp); `Env.clock` maps the
read index to the observed time.
-/

namespace SemanticCacheQA

/-- Metadata stored with a cached vector (`app.py` lines 72-76):
question, answer and the creation timestamp. -/
structure Metadata where
  question : String
  answer : String
  timestamp : Nat
deriving DecidableEq, Repr

/-- A vector record as upserted into the Pinecone index
(`app.py` lines 79-83): id, values and metadata. -/
structure CacheEntry where
  id : String
  values : List ℚ
  metadata : Metadata
deriving DecidableEq, Repr

/-- A query match as returned by `index.query` with
`include_values=True, include_metadata=True`. -/
structure MatchR where
  id : String
  score : ℚ
  values : List ℚ
  metadata : Metadata
deriving DecidableEq, Repr

/-- The dictionary returned by `ask_question` (`app.py` lines 100-106 and
117-123). -/
structure AskResult where
  source : String
  answer : String
  similarity : Option ℚ
  matched_question : Option String
  timestamp : Nat
deriving DecidableEq, Repr

/-- The external collaborators of `SemanticCacheQA`:
`embed` is `SentenceTransformer.encode` (deterministic for identical input,
per the spec's Embedder contract); `sim` is the cosine scoring the Pinecone
index applies between a query vector and a stored vector; `llm` is
`ChatGroq.invoke`, `none` when it raises; `hashFn` is Python's builtin
`hash` on strings, which is salted per interpreter process; `clock` gives
the value of the k-th `datetime.now()` read; `upsertFails` tells whether
`index.upsert` raises. -/
structure Env where
  embed : String → List ℚ
  sim : List ℚ → List ℚ → ℚ
  llm : String → Option String
  hashFn : String → Int
  clock : Nat → Nat
  upsertFails : Bool

/-- The mutable state of a run: the index contents, the number of clock
reads so far, plus instrumentation logging every upserted vector and
counting LLM invocations. -/
structure SysState where
  index : List CacheEntry
  reads : Nat
  upserts : List CacheEntry
  llmCalls : Nat
deriving DecidableEq, Repr

/-- Errors that escape `ask_question`: the only raising operation in the
`app.py` flow is `index.upsert` (the LLM error is caught locally). -/
inductive PyErr where
  | upsertError : PyErr
deriving DecidableEq, Repr

/-- `self.similarity_threshold = 0.85` (`app.py` line 42), written as the
rational 85/100 in a kernel-computable form. -/
def similarity_threshold : ℚ := mkRat 85 100

/-- The threshold value is the decimal 0.85 of the source. -/
theorem similarity_threshold_eq : similarity_threshold = 0.85 := by
  rw [similarity_threshold, Rat.mkRat_eq_div]
  norm_num

/-- `get_embedding` (`app.py` lines 44-46): embed the text. -/
def get_embedding (env : Env) (text : String) : List ℚ :=
  env.embed text

/-- The match the index builds from a stored entry for a given query
vector: same id, values and metadata, scored by the index metric. -/
def entryMatch (env : Env) (v : List ℚ) (e : CacheEntry) : MatchR :=
  { id := e.id, score := env.sim v e.values, values := e.values,
    metadata := e.metadata }

/-- `index.query(vector=v, top_k=1, ...)`: the highest-scoring match among
the stored entries, `none` on an empty index.  Ties are broken
deterministically towards the earlier entry. -/
def queryTop1 (env : Env) (v : List ℚ) : List CacheEntry → Option MatchR
  | [] => none
  | e :: es =>
    match queryTop1 env v es with
    | none => some (entryMatch env v e)
    | some m =>
      if m.score > (entryMatch env v e).score then some m
      else some (entryMatch env v e)

/-- `find_similar_question` (`app.py` lines 48-59, identically
`stream.py` lines 63-71): return the top match iff its score is strictly
greater than the similarity threshold, else `None`. -/
def find_similar_question (env : Env) (index : List CacheEntry)
    (query_embedding : List ℚ) : Option MatchR :=
  match queryTop1 env query_embedding index with
  | some m => if m.score > similarity_threshold then some m else none
  | none => none

/-- The fixed fallback answer text of `generate_answer`
(`app.py` line 68). -/
def fallback_answer : String :=
  "Sorry, I couldn\x27t generate an answer at this time."

/-- `generate_answer` (`app.py` lines 61-68): invoke the LLM; when it
raises, catch the error and return the fixed fallback text. -/
def generate_answer (env : Env) (question : String) : String :=
  match env.llm question with
  | some content => content
  | none => fallback_answer

/-- Pinecone `index.upsert` semantics on the stored entries: an entry with
the same id is overwritten, otherwise the vector is inserted. -/
def upsertVec (index : List CacheEntry) (e : CacheEntry) : List CacheEntry :=
  if index.any (fun x => decide (x.id = e.id)) then
    index.map (fun x => if x.id = e.id then e else x)
  else
    index ++ [e]

/-- The identifier under which `add_to_cache` upserts:
`str(hash(question))` (`app.py` line 80, `stream.py` line 87). -/
def cacheId (env : Env) (question : String) : String :=
  toString (env.hashFn question)

/-- `add_to_cache` (`app.py` lines 70-83): build metadata with a fresh
clock read, then upsert one vector keyed by `str(hash(question))`; an
upsert failure raises. -/
def add_to_cache (env : Env) (st : SysState) (question answer : String)
    (embedding : List ℚ) : Except PyErr SysState :=
  let md : Metadata :=
    { question := question, answer := answer,
      timestamp := env.clock st.reads }
  let entry : CacheEntry :=
    { id := cacheId env question, values := embedding, metadata := md }
  let st1 : SysState := { st with reads := st.reads + 1 }
  if env.upsertFails then Except.error PyErr.upsertError
  else Except.ok { st1 with index := upsertVec st1.index entry,
                            upserts := st1.upserts ++ [entry] }

/-- `ask_question` (`app.py` lines 85-123): embed, search, and either
return the cached metadata on a hit (no mutation), or generate an answer,
cache it, and return it with a fresh timestamp.  The `llmCalls` bump
records the `generate_answer` invocation on the miss path. -/
def ask_question (env : Env) (st : SysState) (question : String) :
    Except PyErr (AskResult × SysState) :=
  let embedding := get_embedding env question
  match find_similar_question env st.index embedding with
  | some m =>
    Except.ok
      ({ source := "cache", answer := m.metadata.answer,
         similarity := some m.score,
         matched_question := some m.metadata.question,
         timestamp := m.metadata.timestamp }, st)
  | none =>
    let answer := generate_answer env question
    let st1 : SysState := { st with llmCalls := st.llmCalls + 1 }
    match add_to_cache env st1 question answer embedding with
    | Except.error e => Except.error e
    | Except.ok st2 =>
      Except.ok
        ({ source := "llm", answer := answer, similarity := none,
           matched_question := none,
           timestamp := env.clock st2.reads },
         { st2 with reads := st2.reads + 1 })

/-- The entry a miss on question `q` upserts when the clock read index is
`reads`: id `str(hash(q))`, values the embedding of `q`, metadata with the
generated answer and the current time. -/
def newEntry (env : Env) (reads : Nat) (q : String) : CacheEntry :=
  { id := cacheId env q, values := env.embed q,
    metadata := { question := q, answer := generate_answer env q,
                  timestamp := env.clock reads } }

/-- On a hit (`find_similar_question` returns a match), `ask_question`
returns the cached metadata and leaves the state untouched. -/
theorem ask_question_hit (env : Env) (st : SysState) (q : String) (m : MatchR)
    (hm : find_similar_question env st.index (env.embed q) = some m) :
    ask_question env st q = Except.ok
      ({ source := "cache", answer := m.metadata.answer,
         similarity := some m.score,
         matched_question := some m.metadata.question,
         timestamp := m.metadata.timestamp }, st) := by
  simp only [ask_question, get_embedding, hm]

/-- On a miss with a working index, `ask_question` generates an answer,
upserts exactly one new entry, and returns the answer with a second fresh
clock read as timestamp. -/
theorem ask_question_miss (env : Env) (st : SysState) (q : String)
    (hm : find_similar_question env st.index (env.embed q) = none)
    (hup : env.upsertFails = false) :
    ask_question env st q = Except.ok
      ({ source := "llm", answer := generate_answer env q,
         similarity := none, matched_question := none,
         timestamp := env.clock (st.reads + 1) },
       { index := upsertVec st.index (newEntry env st.reads q),
         reads := st.reads + 2,
         upserts := st.upserts ++ [newEntry env st.reads q],
         llmCalls := st.llmCalls + 1 }) := by
  simp only [ask_question, get_embedding, add_to_cache, hm, hup]
  simp [newEntry, cacheId]

/-- On a miss with a failing index write, the upsert error propagates out
of `ask_question`. -/
theorem ask_question_upsert_fail (env : Env) (st : SysState) (q : String)
    (hm : find_similar_question env st.index (env.embed q) = none)
    (hup : env.upsertFails = true) :
    ask_question env st q = Except.error PyErr.upsertError := by
  simp only [ask_question, get_embedding, add_to_cache, hm, hup]
  simp

/-- `queryTop1` returns `none` only on the empty index. -/
theorem queryTop1_eq_none (env : Env) (v : List ℚ) :
    ∀ index : List CacheEntry, queryTop1 env v index = none → index = [] := by
  intro index h
  cases index with
  | nil => rfl
  | cons a as =>
    simp only [queryTop1] at h
    split at h
    · exact absurd h (by simp)
    · split at h <;> exact absurd h (by simp)

/-- Any match `queryTop1` returns is built from some stored entry. -/
theorem queryTop1_mem (env : Env) (v : List ℚ) :
    ∀ (index : List CacheEntry) (m : MatchR),
      queryTop1 env v index = some m → ∃ e ∈ index, m = entryMatch env v e := by
  intro index
  induction index with
  | nil => intro m h; simp [queryTop1] at h
  | cons e es ih =>
    intro m h
    simp only [queryTop1] at h
    split at h
    next =>
      exact ⟨e, List.mem_cons_self e es, (Option.some.inj h).symm⟩
    next m0 hq =>
      split at h
      next =>
        obtain ⟨e0, he0, hm0⟩ := ih m0 hq
        refine ⟨e0, List.mem_cons_of_mem e he0, ?_⟩
        rw [← hm0]
        exact (Option.some.inj h).symm
      next =>
        exact ⟨e, List.mem_cons_self e es, (Option.some.inj h).symm⟩

/-- The match `queryTop1` returns scores at least as high as every stored
entry: it is the top-1 result. -/
theorem queryTop1_ge (env : Env) (v : List ℚ) :
    ∀ (index : List CacheEntry) (m : MatchR),
      queryTop1 env v index = some m →
      ∀ e ∈ index, env.sim v e.values ≤ m.score := by
  intro index
  induction index with
  | nil => intro m _ e he; cases he
  | cons a as ih =>
    intro m h e he
    simp only [queryTop1] at h
    split at h
    next hq =>
      have hm : m = entryMatch env v a := (Option.some.inj h).symm
      have has : as = [] := queryTop1_eq_none env v as hq
      subst has
      rcases List.mem_cons.mp he with rfl | hmem
      · rw [hm]; exact le_refl _
      · cases hmem
    next m0 hq =>
      split at h
      next hgt =>
        have hm : m = m0 := (Option.some.inj h).symm
        rcases List.mem_cons.mp he with rfl | hmem
        · rw [hm]; exact le_of_lt hgt
        · rw [hm]; exact ih m0 hq e hmem
      next hgt =>
        have hm : m = entryMatch env v a := (Option.some.inj h).symm
        rcases List.mem_cons.mp he with rfl | hmem
        · rw [hm]; exact le_refl _
        · rw [hm]
          calc env.sim v e.values ≤ m0.score := ih m0 hq e hmem
            _ ≤ (entryMatch env v a).score := not_lt.mp hgt

/-- `queryTop1` returns a match on every nonempty index. -/
theorem queryTop1_of_mem (env : Env) (v : List ℚ) (e : CacheEntry)
    (index : List CacheEntry) (he : e ∈ index) :
    ∃ m, queryTop1 env v index = some m := by
  cases index with
  | nil => cases he
  | cons a as =>
    simp only [queryTop1]
    cases queryTop1 env v as with
    | none => exact ⟨_, rfl⟩
    | some m0 =>
      by_cases hgt : m0.score > (entryMatch env v a).score
      · exact ⟨m0, if_pos hgt⟩
      · exact ⟨entryMatch env v a, if_neg hgt⟩

/-- The upserted vector is stored after `upsertVec`. -/
theorem upsertVec_mem_new (index : List CacheEntry) (e : CacheEntry) :
    e ∈ upsertVec index e := by
  unfold upsertVec
  split
  next h =>
    rw [List.any_eq_true] at h
    obtain ⟨x, hx, hxe⟩ := h
    rw [decide_eq_true_eq] at hxe
    have hmap := List.mem_map_of_mem (fun y => if y.id = e.id then e else y) hx
    simpa [if_pos hxe] using hmap
  next =>
    exact List.mem_append_right _ (List.mem_singleton.mpr rfl)

/-- An entry whose id differs from the upserted id survives `upsertVec`
unchanged. -/
theorem upsertVec_mem_old (index : List CacheEntry) (e x : CacheEntry)
    (hx : x ∈ index) (hne : x.id ≠ e.id) : x ∈ upsertVec index e := by
  unfold upsertVec
  split
  next =>
    have hmap := List.mem_map_of_mem (fun y => if y.id = e.id then e else y) hx
    simpa [if_neg hne] using hmap
  next =>
    exact List.mem_append_left _ hx

/-- Every entry stored after `upsertVec` is an old entry or the new one. -/
theorem upsertVec_mem (index : List CacheEntry) (e x : CacheEntry)
    (hx : x ∈ upsertVec index e) : x ∈ index ∨ x = e := by
  unfold upsertVec at hx
  split at hx
  next =>
    obtain ⟨y, hy, hyx⟩ := List.mem_map.mp hx
    by_cases h : y.id = e.id
    · right; rw [if_pos h] at hyx; exact hyx.symm
    · left; rw [if_neg h] at hyx; exact hyx ▸ hy
  next =>
    rcases List.mem_append.mp hx with h | h
    · left; exact h
    · right; simpa using h

/-- `find_similar_question` returns a match only when the top-1 query
result scores strictly above the threshold. -/
theorem find_similar_eq_some (env : Env) (index : List CacheEntry)
    (v : List ℚ) (m : MatchR)
    (h : find_similar_question env index v = some m) :
    queryTop1 env v index = some m ∧ m.score > similarity_threshold := by
  unfold find_similar_question at h
  split at h
  next m0 hq =>
    split at h
    next hgt =>
      obtain rfl := Option.some.inj h
      exact ⟨hq, hgt⟩
    next => exact Option.noConfusion h
  next => exact Option.noConfusion h

/-! Concrete instantiations of the collaborator interface, used to
evaluate the code on explicit inputs.  `simEq` is the cosine score on an
orthonormal family of embedding vectors: 1 for the same vector, 0 for
distinct (orthogonal) ones. -/

/-- Cosine scoring restricted to an orthonormal vector family. -/
def simEq : List ℚ → List ℚ → ℚ := fun u w => if u = w then 1 else 0

/-- The initial state: empty index, no clock reads, no collaborator
calls. -/
def st0 : SysState := { index := [], reads := 0, upserts := [], llmCalls := 0 }

/-- A working environment: constant embedder, working LLM, advancing
clock, hash salt giving 0 on every question. -/
def envW : Env :=
  { embed := fun _ => [1, 0], sim := simEq, llm := fun _ => some "ans",
    hashFn := fun _ => 0, clock := fun k => k, upsertFails := false }

/-- An environment whose Answerer always fails (the LLM raises on every
question), with a working index. -/
def envC1 : Env :=
  { embed := fun _ => [1, 0], sim := simEq, llm := fun _ => none,
    hashFn := fun _ => 3, clock := fun k => k, upsertFails := false }

/-- The cache-miss question of the repository's own test set. -/
def fluQ : String := "What are the symptoms of flu?"

/-- The entry the code upserts when generation fails on `fluQ` from the
empty state: it persists the fallback answer text. -/
def entryC1 : CacheEntry :=
  { id := "3", values := [1, 0],
    metadata := { question := fluQ, answer := fallback_answer,
                  timestamp := 0 } }

/-- The state after asking `fluQ` in `envC1`: the fallback answer has
been upserted into the index. -/
def sC1 : SysState :=
  { index := [entryC1], reads := 2, upserts := [entryC1], llmCalls := 1 }

/-- C1: the spec says a failed generation returns the fallback answer
with source=llm and causes no upsert.  The code does return the fallback
with source=llm, but it caches unconditionally on a miss: evaluating
`ask_question` on a cache miss with a failing Answerer shows exactly one
upsert whose stored answer is the fallback text, contradicting the "no
upsert" part (the unconditional caching the spec itself flags as a latent
defect of the reference code). -/
theorem c1_fallback_answer_is_upserted :
    ask_question envC1 st0 fluQ = Except.ok
      ({ source := "llm", answer := fallback_answer, similarity := none,
         matched_question := none, timestamp := 1 }, sC1) ∧
    sC1.upserts = [entryC1] ∧
    entryC1.metadata.answer = fallback_answer :=
  ⟨rfl, rfl, rfl⟩

/-- C2: a search candidate counts as a cache hit iff its score is
strictly greater than the 0.85 threshold: every hit returned by
`find_similar_question` scores strictly above the threshold, and a top-1
candidate that does not score strictly above it (in particular one whose
score equals the threshold exactly) yields a miss. -/
theorem c2_hit_iff_strictly_above_threshold (env : Env)
    (index : List CacheEntry) (v : List ℚ) :
    (∀ m, find_similar_question env index v = some m →
        queryTop1 env v index = some m ∧ m.score > similarity_threshold) ∧
    (∀ m, queryTop1 env v index = some m →
        ¬ m.score > similarity_threshold →
        find_similar_question env index v = none) := by
  constructor
  · intro m h
    exact find_similar_eq_some env index v m h
  · intro m hq hnot
    unfold find_similar_question
    rw [hq]
    exact if_neg hnot

/-- C3: on a cache miss with a working index, `ask_question` returns
source=llm with null similarity and null matched question, and upserts
exactly one new entry holding the question, the generated answer and the
question's embedding. -/
theorem c3_miss_returns_llm_and_upserts_once (env : Env) (st : SysState)
    (q : String)
    (hmiss : find_similar_question env st.index (env.embed q) = none)
    (hup : env.upsertFails = false) :
    ask_question env st q = Except.ok
      ({ source := "llm", answer := generate_answer env q,
         similarity := none, matched_question := none,
         timestamp := env.clock (st.reads + 1) },
       { index := upsertVec st.index (newEntry env st.reads q),
         reads := st.reads + 2,
         upserts := st.upserts ++ [newEntry env st.reads q],
         llmCalls := st.llmCalls + 1 }) ∧
    newEntry env st.reads q =
      { id := cacheId env q, values := env.embed q,
        metadata := { question := q, answer := generate_answer env q,
                      timestamp := env.clock st.reads } } :=
  ⟨ask_question_miss env st q hmiss hup, rfl⟩

/-- C3 witness: the miss theorem evaluated on a concrete question in a
working environment with an empty index. -/
theorem c3_witness :
    ask_question envW st0 "q" = Except.ok
      ({ source := "llm", answer := generate_answer envW "q",
         similarity := none, matched_question := none,
         timestamp := envW.clock (st0.reads + 1) },
       { index := upsertVec st0.index (newEntry envW st0.reads "q"),
         reads := st0.reads + 2,
         upserts := st0.upserts ++ [newEntry envW st0.reads "q"],
         llmCalls := st0.llmCalls + 1 }) ∧
    newEntry envW st0.reads "q" =
      { id := cacheId envW "q", values := envW.embed "q",
        metadata := { question := "q", answer := generate_answer envW "q",
                      timestamp := envW.clock st0.reads } } :=
  c3_miss_returns_llm_and_upserts_once envW st0 "q" rfl rfl

/-- C4: on a cache hit, `ask_question` returns source=cache with the
matched entry's stored answer, question and creation timestamp and the
match score as similarity, and the state is returned untouched: no index
mutation (the upsert log is unchanged) and no Answerer call (the LLM call
count is unchanged). -/
theorem c4_hit_returns_entry_and_mutates_nothing (env : Env)
    (st : SysState) (q : String) (m : MatchR)
    (hhit : find_similar_question env st.index (env.embed q) = some m) :
    (∃ e ∈ st.index, m = entryMatch env (env.embed q) e) ∧
    ask_question env st q = Except.ok
      ({ source := "cache", answer := m.metadata.answer,
         similarity := some m.score,
         matched_question := some m.metadata.question,
         timestamp := m.metadata.timestamp }, st) := by
  obtain ⟨hq, _⟩ := find_similar_eq_some env st.index (env.embed q) m hhit
  exact ⟨queryTop1_mem env (env.embed q) st.index m hq,
         ask_question_hit env st q m hhit⟩

/-- A stored entry used to exercise the hit path on a concrete input. -/
def entryH : CacheEntry :=
  { id := "5", values := [1, 0],
    metadata := { question := "q0", answer := "a0", timestamp := 5 } }

/-- A state holding exactly `entryH`. -/
def stH : SysState :=
  { index := [entryH], reads := 0, upserts := [], llmCalls := 0 }

/-- The match the index returns for the query embedding `[1, 0]` against
`entryH`: a self-score of 1. -/
def matchH : MatchR :=
  { id := "5", score := 1, values := [1, 0],
    metadata := { question := "q0", answer := "a0", timestamp := 5 } }

/-- C4 witness: the hit theorem evaluated on a concrete one-entry index
whose stored vector equals the query embedding. -/
theorem c4_witness :
    (∃ e ∈ stH.index, matchH = entryMatch envW (envW.embed "q0") e) ∧
    ask_question envW stH "q0" = Except.ok
      ({ source := "cache", answer := matchH.metadata.answer,
         similarity := some matchH.score,
         matched_question := some matchH.metadata.question,
         timestamp := matchH.metadata.timestamp }, stH) :=
  c4_hit_returns_entry_and_mutates_nothing envW stH "q0" matchH (by rfl)

/-- An environment whose LLM succeeds but whose index write raises. -/
def envC5 : Env :=
  { embed := fun _ => [1, 0], sim := simEq,
    llm := fun _ => some "generated", hashFn := fun _ => 0,
    clock := fun k => k, upsertFails := true }

/-- C5 counterexample: generation succeeds (the generated answer is the
text "generated"), yet when the subsequent upsert fails `ask_question`
raises the upsert error instead of returning that answer: `add_to_cache`
has no error recovery, so the claim's "the answer is still returned"
fails on the code. -/
theorem c5_counterexample :
    generate_answer envC5 "q" = "generated" ∧
    ask_question envC5 st0 "q" = Except.error PyErr.upsertError :=
  ⟨rfl, rfl⟩

/-- C5 amended: on a miss on which generation succeeds or fails, a
failing index upsert makes `ask_question` raise the upsert error to the
caller; the generated answer is not returned (and nothing is cached). -/
theorem c5_amended_upsert_failure_propagates (env : Env) (st : SysState)
    (q : String)
    (hmiss : find_similar_question env st.index (env.embed q) = none)
    (hup : env.upsertFails = true) :
    ask_question env st q = Except.error PyErr.upsertError :=
  ask_question_upsert_fail env st q hmiss hup

/-- C5 witness: the amended theorem evaluated on a concrete question with
an empty index and a failing index write. -/
theorem c5_witness :
    ask_question envC5 st0 "w" = Except.error PyErr.upsertError :=
  c5_amended_upsert_failure_propagates envC5 st0 "w" rfl rfl

/-- A first interpreter process: its salted builtin string hash is
modelled by one concrete hash function. -/
def envP1 : Env :=
  { embed := fun _ => [1, 0], sim := simEq, llm := fun _ => some "ans",
    hashFn := fun _ => 0, clock := fun k => k, upsertFails := false }

/-- A second interpreter process: identical collaborators except for the
process hash salt, under which the builtin hash gives other values. -/
def envP2 : Env :=
  { embed := fun _ => [1, 0], sim := simEq, llm := fun _ => some "ans",
    hashFn := fun _ => 1, clock := fun k => k, upsertFails := false }

/-- A question of the repository's own test set. -/
def japanQ : String := "What is the capital of Japan?"

/-- C6: the spec requires the upsert identifier to be a stable function
of the question text alone, identical across processes.  The code derives
it as `str(hash(question))` from Python's per-process salted builtin
hash: in two processes that agree on every other collaborator but carry
different hash salts, the same question text yields different
identifiers. -/
theorem c6_identifier_not_cross_process_stable :
    envP1.embed = envP2.embed ∧ envP1.sim = envP2.sim ∧
    envP1.llm = envP2.llm ∧ envP1.clock = envP2.clock ∧
    cacheId envP1 japanQ ≠ cacheId envP2 japanQ :=
  ⟨rfl, rfl, rfl, rfl, by decide⟩

/-- C9: `ask_question` validates nothing about its input: for every
string, the empty string included, it runs the same
embed → search → hit/miss path and returns a well-formed result (source
"cache" with populated similarity and matched question exactly on a hit,
source "llm" with null similarity and matched question on a miss), never
rejecting the input. -/
theorem c9_no_input_validation (env : Env) (st : SysState) (q : String)
    (hup : env.upsertFails = false) :
    ∃ r st', ask_question env st q = Except.ok (r, st') ∧
      ((∃ m, find_similar_question env st.index (env.embed q) = some m ∧
          r.source = "cache" ∧ r.similarity = some m.score ∧
          r.matched_question = some m.metadata.question) ∨
       (find_similar_question env st.index (env.embed q) = none ∧
          r.source = "llm" ∧ r.similarity = none ∧
          r.matched_question = none)) := by
  cases hfind : find_similar_question env st.index (env.embed q) with
  | some m =>
    exact ⟨_, _, ask_question_hit env st q m hfind,
           Or.inl ⟨m, rfl, rfl, rfl, rfl⟩⟩
  | none =>
    exact ⟨_, _, ask_question_miss env st q hfind hup,
           Or.inr ⟨rfl, rfl, rfl, rfl⟩⟩

/-- C9 witness: the no-validation theorem evaluated on the empty
string. -/
theorem c9_witness :
    ∃ r st', ask_question envW st0 "" = Except.ok (r, st') ∧
      ((∃ m, find_similar_question envW st0.index (envW.embed "") = some m ∧
          r.source = "cache" ∧ r.similarity = some m.score ∧
          r.matched_question = some m.metadata.question) ∨
       (find_similar_question envW st0.index (envW.embed "") = none ∧
          r.source = "llm" ∧ r.similarity = none ∧
          r.matched_question = none)) :=
  c9_no_input_validation envW st0 "" rfl

/-- C10: on a cache miss the persisted entry's creation timestamp and the
returned result's timestamp come from two separate consecutive clock
reads (read index `st.reads` inside `add_to_cache`, read index
`st.reads + 1` when the return value is built), so under any clock that
never repeats a value the returned timestamp differs from the persisted
one: equality is not guaranteed. -/
theorem c10_two_separate_clock_reads (env : Env) (st : SysState)
    (q : String)
    (hmiss : find_similar_question env st.index (env.embed q) = none)
    (hup : env.upsertFails = false) :
    ∃ r st', ask_question env st q = Except.ok (r, st') ∧
      st'.upserts = st.upserts ++ [newEntry env st.reads q] ∧
      (newEntry env st.reads q).metadata.timestamp = env.clock st.reads ∧
      r.timestamp = env.clock (st.reads + 1) ∧
      (Function.Injective env.clock →
        (newEntry env st.reads q).metadata.timestamp ≠ r.timestamp) := by
  refine ⟨_, _, ask_question_miss env st q hmiss hup, rfl, rfl, rfl, ?_⟩
  intro hinj heq
  have hreads : st.reads = st.reads + 1 := hinj heq
  omega

/-- C10 witness: the two-clock-reads theorem evaluated on a concrete
question with an empty index and the identity clock. -/
theorem c10_witness :
    ∃ r st', ask_question envW st0 "q2" = Except.ok (r, st') ∧
      st'.upserts = st0.upserts ++ [newEntry envW st0.reads "q2"] ∧
      (newEntry envW st0.reads "q2").metadata.timestamp =
        envW.clock st0.reads ∧
      r.timestamp = envW.clock (st0.reads + 1) ∧
      (Function.Injective envW.clock →
        (newEntry envW st0.reads "q2").metadata.timestamp ≠ r.timestamp) :=
  c10_two_separate_clock_reads envW st0 "q2" rfl rfl

/-- C7: with a deterministic embedder whose self-similarity is the cosine
self-score 1 and scores bounded by 1, asking the same question twice from
a state with no prior entry scoring above the threshold yields source=llm
on the first call and source=cache with similarity exactly 1 (the
self-match) on the second. -/
theorem c7_miss_then_hit_with_self_similarity (env : Env) (st : SysState)
    (q : String)
    (hmiss : find_similar_question env st.index (env.embed q) = none)
    (hup : env.upsertFails = false)
    (hself : env.sim (env.embed q) (env.embed q) = 1)
    (hbound : ∀ u : List ℚ, env.sim (env.embed q) u ≤ 1) :
    ∃ r1 st1 r2 st2,
      ask_question env st q = Except.ok (r1, st1) ∧ r1.source = "llm" ∧
      ask_question env st1 q = Except.ok (r2, st2) ∧ r2.source = "cache" ∧
      r2.similarity = some 1 := by
  have h1 := ask_question_miss env st q hmiss hup
  set eN := newEntry env st.reads q with heN
  set st1 : SysState :=
    { index := upsertVec st.index eN, reads := st.reads + 2,
      upserts := st.upserts ++ [eN], llmCalls := st.llmCalls + 1 } with hst1
  have hmem : eN ∈ st1.index := upsertVec_mem_new st.index eN
  obtain ⟨m, hm⟩ := queryTop1_of_mem env (env.embed q) eN st1.index hmem
  have hge : (1 : ℚ) ≤ m.score := by
    have h := queryTop1_ge env (env.embed q) st1.index m hm eN hmem
    have hv : env.sim (env.embed q) eN.values =
        env.sim (env.embed q) (env.embed q) := rfl
    rw [hv, hself] at h
    exact h
  have hle : m.score ≤ 1 := by
    obtain ⟨e, _, hme⟩ := queryTop1_mem env (env.embed q) st1.index m hm
    have hsc : m.score = env.sim (env.embed q) e.values := by
      rw [hme]
      rfl
    rw [hsc]
    exact hbound e.values
  have hs : m.score = 1 := le_antisymm hle hge
  have hthr : m.score > similarity_threshold := by
    rw [hs]
    decide
  have hfind : find_similar_question env st1.index (env.embed q) = some m := by
    unfold find_similar_question
    rw [hm]
    exact if_pos hthr
  exact ⟨_, st1, _, st1, h1, rfl, ask_question_hit env st1 q m hfind, rfl,
         by rw [hs]⟩

/-- C7 witness: the miss-then-hit theorem evaluated on a concrete
question in a working environment with an empty index. -/
theorem c7_witness :
    ∃ r1 st1 r2 st2,
      ask_question envW st0 "q" = Except.ok (r1, st1) ∧ r1.source = "llm" ∧
      ask_question envW st1 "q" = Except.ok (r2, st2) ∧
      r2.source = "cache" ∧ r2.similarity = some 1 :=
  c7_miss_then_hit_with_self_similarity envW st0 "q" rfl rfl (by rfl)
    (by
      intro u
      show (if [(1 : ℚ), 0] = u then (1 : ℚ) else 0) ≤ 1
      split
      · exact le_refl 1
      · norm_num)

/-- An environment exercising an identifier collision: two distinct
questions carry orthogonal embeddings (so neither hits the other's cache
entry) but the process hash assigns them the same value, as a hash
collision of the builtin 64-bit string hash does. -/
def envC8 : Env :=
  { embed := fun q => if q = "A" then [1, 0] else [0, 1], sim := simEq,
    llm := fun q => some (String.append "ans" q), hashFn := fun _ => 7,
    clock := fun k => k, upsertFails := false }

/-- The entry cached for question "A" in `envC8`. -/
def entryA : CacheEntry :=
  { id := "7", values := [1, 0],
    metadata := { question := "A", answer := "ansA", timestamp := 0 } }

/-- The entry cached for question "B" in `envC8`: same identifier. -/
def entryB : CacheEntry :=
  { id := "7", values := [0, 1],
    metadata := { question := "B", answer := "ansB", timestamp := 2 } }

/-- The state after asking "A" in `envC8` from the empty state. -/
def sA : SysState :=
  { index := [entryA], reads := 2, upserts := [entryA], llmCalls := 1 }

/-- The state after then asking "B": the upsert under the colliding
identifier has replaced `entryA` in the index. -/
def sB : SysState :=
  { index := [entryB], reads := 4, upserts := [entryA, entryB],
    llmCalls := 2 }

/-- C8 counterexample: an entry present in the index before an ask()
call is not always present after it.  Asking "B" misses (score 0 against
the stored orthogonal vector) and upserts under the same identifier
`str(hash("B")) = str(hash("A"))`, and Pinecone upsert overwrites by id:
the entry for "A" is gone afterwards, refuting the claim that entries are
immutable for every sequence of calls. -/
theorem c8_counterexample :
    ask_question envC8 st0 "A" = Except.ok
      ({ source := "llm", answer := "ansA", similarity := none,
         matched_question := none, timestamp := 1 }, sA) ∧
    entryA ∈ sA.index ∧
    ask_question envC8 sA "B" = Except.ok
      ({ source := "llm", answer := "ansB", similarity := none,
         matched_question := none, timestamp := 3 }, sB) ∧
    entryA ∉ sB.index := by
  refine ⟨rfl, ?_, rfl, ?_⟩
  · exact List.mem_singleton.mpr rfl
  · decide

/-- C8 amended: ask() never deletes entries, and an entry whose
identifier differs from `str(hash(question))` of the asked question is
still present after the call; only a miss whose computed identifier
collides with the entry's identifier can overwrite it. -/
theorem c8_amended_entry_preserved_without_id_collision (env : Env)
    (st : SysState) (q : String) (r : AskResult) (st' : SysState)
    (h : ask_question env st q = Except.ok (r, st'))
    (e : CacheEntry) (he : e ∈ st.index) (hid : e.id ≠ cacheId env q) :
    e ∈ st'.index := by
  cases hfind : find_similar_question env st.index (env.embed q) with
  | some m =>
    rw [ask_question_hit env st q m hfind] at h
    have hst : st = st' := congrArg Prod.snd (Except.ok.inj h)
    rw [← hst]
    exact he
  | none =>
    cases hub : env.upsertFails with
    | true =>
      rw [ask_question_upsert_fail env st q hfind hub] at h
      exact Except.noConfusion h
    | false =>
      rw [ask_question_miss env st q hfind hub] at h
      have hst : _ = st' := congrArg Prod.snd (Except.ok.inj h)
      rw [← hst]
      exact upsertVec_mem_old st.index (newEntry env st.reads q) e he hid

/-- A prior entry whose identifier does not collide with the asked
question's identifier. -/
def entryOther : CacheEntry :=
  { id := "9", values := [0, 1],
    metadata := { question := "C", answer := "ansC", timestamp := 0 } }

/-- A state holding exactly `entryOther`. -/
def stPrior : SysState :=
  { index := [entryOther], reads := 0, upserts := [], llmCalls := 0 }

/-- The state after asking "A" in `envC8` from `stPrior`: the new entry
(`entryA`, timestamp 0, appended since its identifier is fresh there) and
the surviving `entryOther`. -/
def sPrior2 : SysState :=
  { index := [entryOther, entryA], reads := 2, upserts := [entryA],
    llmCalls := 1 }

/-- C8 witness: the amended theorem evaluated on a concrete call whose
upserted identifier "7" differs from the prior entry's identifier "9". -/
theorem c8_witness : entryOther ∈ sPrior2.index :=
  c8_amended_entry_preserved_without_id_collision envC8 stPrior "A"
    { source := "llm", answer := "ansA", similarity := none,
      matched_question := none, timestamp := 1 }
    sPrior2 (by rfl) entryOther (List.mem_singleton.mpr rfl) (by decide)

end SemanticCacheQA
